import Mathlib

/-!
Verification development for the morning-summary station calendar core
(`integrations/google-calendar/calendar_service.js`, `get_events.js`,
`getToken.js`, `setup_calendar_config.js`) as a shallow embedding: the
JavaScript functions become Lean functions over explicit state, file and
provider-response values, and thrown exceptions become `Except` errors.
-/

namespace MorningStation

/-- An apostrophe character as a string, used to spell string literals
containing one. -/
def apos : String := (Char.ofNat 39).toString

/-- JS truthiness of a possibly-undefined string: `undefined` and the empty
string are falsy. -/
def jsTruthy : Option String → Bool
  | none => false
  | some s => s != ""

/-- JS `a || b` on possibly-undefined strings. -/
def jsOr (a b : Option String) : Option String :=
  if jsTruthy a then a else b

/-- JS `a || d` where `d` is a present string default. -/
def jsOrDefault (a : Option String) (d : String) : String :=
  match jsOr a (some d) with
  | some s => s
  | none => d

/-- JS `s.includes(c)` for a single character, checked on the character
data of the string. -/
def jsIncludesChar (s : String) (c : Char) : Bool := s.data.contains c

/-- Models the locale clock-time rendering `new Date(s).toLocaleTimeString`
used by the source for display strings: we take the HH:MM field after the T
separator (the exact digits are locale and timezone dependent and no claim
depends on them), and an undefined argument gives the invalid-date
placeholder, as JS renders an invalid date. -/
def localeTimeString : Option String → String
  | none => "Invalid Date"
  | some s => ((s.splitOn "T").getD 1 "").take 5

/-- The `tokens` object of the calendar config file (see
`setup_calendar_config.js`: refresh token, scope, token type, expiry). -/
structure TokenData where
  refresh_token : Option String
  access_token : Option String
  expiry_date : Option Int
  deriving Repr, DecidableEq

/-- The `installed` section of the calendar config file. -/
structure InstalledSection where
  client_id : Option String
  client_secret : Option String
  redirect_uris : Option (List String)
  deriving Repr, DecidableEq

/-- The parsed JSON shape `initialize()` reads from `calendar_config.json`. -/
structure CalendarConfig where
  installed : Option InstalledSection
  tokens : Option TokenData
  deriving Repr, DecidableEq

/-- The observable states of the config file as `initialize()` encounters
them: missing, readable but throwing on read, unparsable JSON, or parsed. -/
inductive ConfigFile where
  | absent
  | unreadable
  | malformed
  | parsed (config : CalendarConfig)
  deriving Repr, DecidableEq

/-- The OAuth2 client object built by `initialize()` from the installed
section, with credentials set from the config tokens when present. -/
structure OAuth2Client where
  clientId : Option String
  clientSecret : Option String
  redirectUri : Option String
  credentials : Option TokenData
  deriving Repr, DecidableEq

/-- The fields of a `GoogleCalendarService` instance. The source constructor
assigns `configPath`, `calendarId`, `oAuth2Client` and `initialized`; no
constructor or method ever assigns a `calendar` field, which we model as an
`Option` that records whether it was ever set. -/
structure SvcState where
  configPath : String
  calendarId : String
  oAuth2Client : Option OAuth2Client
  calendar : Option Unit
  initialized : Bool
  deriving Repr, DecidableEq

/-- The `GoogleCalendarService` constructor: `configPath` defaults to the
bundled path, `calendarId` is always primary, the OAuth client is unset and
the service starts uninitialized. -/
def GoogleCalendarService.new (configPath : Option String) : SvcState :=
  { configPath := configPath.getD "integrations/google-calendar/calendar_config.json"
    calendarId := "primary"
    oAuth2Client := none
    calendar := none
    initialized := false }

/-- The body of `initialize()` before its catch: `Except.error` marks a thrown
JS exception (file read failure, JSON parse failure, or the TypeError from
indexing `redirect_uris` when that array is undefined in the destructured
installed section). Mutations performed before a throw are kept; every throw
in the source occurs before any field assignment. -/
def initializeBody (s : SvcState) (file : ConfigFile) :
    Except String (SvcState × Bool) :=
  match file with
  | .absent => .ok (s, false)
  | .unreadable => .error "readFileSync failed"
  | .malformed => .error "JSON.parse failed"
  | .parsed config =>
    match config.installed with
    | none => .ok (s, false)
    | some installed =>
      match installed.redirect_uris with
      | none => .error "TypeError: cannot index redirect_uris"
      | some uris =>
        let client : OAuth2Client :=
          { clientId := installed.client_id
            clientSecret := installed.client_secret
            redirectUri := uris.head?
            credentials := none }
        match config.tokens with
        | some toks =>
          .ok ({ s with
                  oAuth2Client := some { client with credentials := some toks }
                  initialized := true }, true)
        | none =>
          .ok ({ s with oAuth2Client := some client }, false)

/-- `initialize()`: runs the body inside try/catch; any thrown error is
logged and converted into a `false` return. -/
def initializeService (s : SvcState) (file : ConfigFile) : SvcState × Bool :=
  match initializeBody s file with
  | .ok r => r
  | .error _ => (s, false)

/-- Milliseconds in one day of the local clock. -/
def msPerDay : Int := 86400000

/-- Models `new Date(now.setHours(0, 0, 0, 0))`: the most recent local
midnight, with instants measured in milliseconds on the local clock. -/
def startOfDayMs (now : Int) : Int := now - now % msPerDay

/-- Models the following `now.setHours(23, 59, 59, 999)`; `setHours` had
already truncated `now` to midnight in place, so this is the last
millisecond of the same local day. -/
def endOfDayMs (now : Int) : Int := startOfDayMs now + 86399999

/-- The `start` or `end` object of a raw provider event: a timed event
carries `dateTime`, an all-day event carries only `date`. -/
structure RawEventTime where
  dateTime : Option String
  date : Option String
  deriving Repr, DecidableEq

/-- An attendee entry of a raw provider event. -/
structure RawAttendee where
  email : String
  deriving Repr, DecidableEq

/-- A raw event as returned by the provider events-list endpoint, with the
fields the source reads. -/
structure RawEvent where
  id : String
  summary : Option String
  description : Option String
  location : Option String
  start : RawEventTime
  «end» : RawEventTime
  attendees : Option (List RawAttendee)
  deriving Repr, DecidableEq

/-- The simplified event structure built by the map inside
`getTodayEvents()`. -/
structure TodayEvent where
  summary : String
  start : Option String
  «end» : Option String
  formattedTime : String
  deriving Repr, DecidableEq

/-- The per-event mapping inside `getTodayEvents()`: start and end fall back
from `dateTime` to `date`; the display time is the locale clock time when the
start contains a T separator and the all-day label otherwise; a missing
summary becomes the untitled placeholder. -/
def normalizeTodayEvent (event : RawEvent) : TodayEvent :=
  let startDateTime := jsOr event.start.dateTime event.start.date
  let formattedTime :=
    match startDateTime with
    | some sdt => if jsIncludesChar sdt 'T' then localeTimeString (some sdt) else "All day"
    | none => "All day"
  { summary := jsOrDefault event.summary "Untitled Event"
    start := startDateTime
    «end» := jsOr event.«end».dateTime event.«end».date
    formattedTime := formattedTime }

/-- The parameters of a provider events-list request as the source builds
them. -/
structure ListParams where
  calendarId : String
  timeMin : Int
  timeMax : Int
  singleEvents : Bool
  orderBy : String
  deriving Repr, DecidableEq

/-- The outcome of a provider events-list call: a response whose `items` may
be undefined, or a thrown network/API error. -/
inductive ProviderResult where
  | ok (items : Option (List RawEvent))
  | apiError (message : String)
  deriving Repr, DecidableEq

/-- The errors `getTodayEvents()` can throw: the not-initialized guard error,
thrown before any request, or a rethrown provider error. -/
inductive CalError where
  | notInitialized
  | apiError (message : String)
  deriving Repr, DecidableEq

/-- `getTodayEvents()`: initializes on demand and throws if that fails;
otherwise queries the local day window with `singleEvents` and start-time
ordering, and maps the response items (defaulting to the empty list) through
the per-event normalization, rethrowing a provider error after logging.
Returns the result together with the list requests issued. -/
def getTodayEvents (s : SvcState) (file : ConfigFile) (now : Int)
    (provider : ProviderResult) :
    Except CalError (List TodayEvent) × List ListParams :=
  let init := if s.initialized then (s, true) else initializeService s file
  if init.2 then
    let request : ListParams :=
      { calendarId := init.1.calendarId
        timeMin := startOfDayMs now
        timeMax := endOfDayMs now
        singleEvents := true
        orderBy := "startTime" }
    match provider with
    | .ok items => (.ok ((items.getD []).map normalizeTodayEvent), [request])
    | .apiError m => (.error (.apiError m), [request])
  else
    (.error .notInitialized, [])

/-- The rich event structure built by `formatEvents()`. -/
structure FormattedEvent where
  id : String
  summary : String
  description : String
  location : String
  start : Option String
  «end» : Option String
  formattedTime : String
  attendees : List String
  isAllDay : Bool
  deriving Repr, DecidableEq

/-- The per-event body of `formatEvents()`: start and end fall back from
`dateTime` to `date`; a timed event renders as a start-to-end clock range and
an event without a start `dateTime` renders as all-day with the flag set;
missing summary, description and location get their defaults; attendee
emails are flattened into a list. -/
def formatEvent (event : RawEvent) : FormattedEvent :=
  let formattedTime :=
    if jsTruthy event.start.dateTime then
      localeTimeString event.start.dateTime ++ " - " ++
        localeTimeString event.«end».dateTime
    else
      "All day"
  { id := event.id
    summary := jsOrDefault event.summary "Untitled Event"
    description := jsOrDefault event.description ""
    location := jsOrDefault event.location ""
    start := jsOr event.start.dateTime event.start.date
    «end» := jsOr event.«end».dateTime event.«end».date
    formattedTime := formattedTime
    attendees := (event.attendees.getD []).map RawAttendee.email
    isAllDay := !(jsTruthy event.start.dateTime) }

/-- `formatEvents()` maps the body over the raw event list. -/
def formatEvents (events : List RawEvent) : List FormattedEvent :=
  events.map formatEvent

/-- The errors `getEvents()` can throw: the TypeError from reading `.events`
of the never-assigned `this.calendar`, or a rethrown provider error. -/
inductive GetEventsError where
  | typeError
  | apiError (message : String)
  deriving Repr, DecidableEq

/-- `getEvents(startDate, endDate)`: initializes on demand with the result
ignored, then calls `this.calendar.events.list`. When the `calendar` field
was never assigned, reading `.events` of `undefined` throws a TypeError,
which the catch logs and rethrows. -/
def getEvents (s : SvcState) (file : ConfigFile) (startDate endDate : Int)
    (provider : ProviderResult) : Except GetEventsError (List RawEvent) :=
  let init := if s.initialized then (s, true) else initializeService s file
  match init.1.calendar with
  | none => .error .typeError
  | some _ =>
    match provider with
    | .ok items => .ok (items.getD [])
    | .apiError m => .error (.apiError m)

/-- The service states reachable through the public surface: a freshly
constructed instance, and the state after any `initialize()` call. The other
methods mutate the instance only through `initialize()`. -/
inductive Reachable : SvcState → Prop where
  | ctor (p : Option String) : Reachable (GoogleCalendarService.new p)
  | step (s : SvcState) (file : ConfigFile) :
      Reachable s → Reachable (initializeService s file).1

/-- The possible outcomes of the `get_events.js` entry point: the events
printed as a JSON line on stdout, or a nonzero process exit. -/
inductive ScriptOutcome where
  | printedJson (events : List TodayEvent)
  | exitedWithCode (code : Nat)
  deriving Repr, DecidableEq

/-- The `get_events.js` entry point: a failed `initialize()` exits with code
one, and every error thrown by `getTodayEvents()` is caught by the
surrounding try/catch, logged and turned into the same nonzero exit; a
successful fetch prints the events as JSON. -/
def getTodayEventsScript (s : SvcState) (file : ConfigFile) (now : Int)
    (provider : ProviderResult) : ScriptOutcome :=
  let init := initializeService s file
  if init.2 then
    match (getTodayEvents init.1 file now provider).1 with
    | .ok events => .printedJson events
    | .error _ => .exitedWithCode 1
  else
    .exitedWithCode 1

/-- A normalized weather snapshot as the orchestrator consumes it. -/
structure WeatherSnapshot where
  summary : String
  temperature : Int
  precipitationChance : Nat
  deriving Repr, DecidableEq

/-- The outcome of the language-generation call the composer drives. -/
inductive LLMOutcome where
  | success (text : String)
  | failure
  deriving Repr, DecidableEq

/-- Modelled from the spec: the event line rendering used by the Narrative
Composer template (the composer lives in the Python application, which is
not under src): each event renders as its time and title. -/
def renderEventLine (e : TodayEvent) : String :=
  e.formattedTime ++ " " ++ e.summary

/-- Modelled from the spec: the deterministic template fallback of the
Narrative Composer (spec section 4.4), built directly from the context with
no external dependency. -/
def templateFallback (weather : Option WeatherSnapshot)
    (events : List TodayEvent) : String :=
  "Good morning! Today" ++ apos ++ "s weather: " ++
    (match weather with
     | some w => w.summary
     | none => "weather unavailable") ++
  ". You have " ++ toString events.length ++ " events today: " ++
  String.intercalate ", " (events.map renderEventLine) ++ "."

/-- Modelled from the spec: `compose(context)` of the Narrative Composer
(spec section 4.4) — the generated text on success, the deterministic
template on a language-generation failure. -/
def compose (weather : Option WeatherSnapshot) (events : List TodayEvent)
    (llm : LLMOutcome) : String :=
  match llm with
  | .success text => text
  | .failure => templateFallback weather events

/-- The Briefing Result the orchestrator returns to the HTTP boundary. -/
structure BriefingResult where
  narrative : String
  weather : Option WeatherSnapshot
  events : List TodayEvent
  weatherDegraded : Bool
  calendarDegraded : Bool
  deriving Repr, DecidableEq

/-- Modelled from the spec: `Orchestrator.run` of the Aggregation
Orchestrator (spec section 4.5; the orchestrator lives in the Python
application, which is not under src). A weather failure becomes a null
snapshot, a calendar failure (nonzero exit of the events script) becomes an
empty event list, each with its degraded flag recorded; composition always
runs, and every path returns a Briefing Result rather than an error. -/
def orchestratorRun (weatherResult : Except String WeatherSnapshot)
    (calendarResult : ScriptOutcome) (llm : LLMOutcome) : BriefingResult :=
  let weather : Option WeatherSnapshot :=
    match weatherResult with
    | .ok w => some w
    | .error _ => none
  let events : List TodayEvent :=
    match calendarResult with
    | .printedJson es => es
    | .exitedWithCode _ => []
  { narrative := compose weather events llm
    weather := weather
    events := events
    weatherDegraded := match weatherResult with
      | .ok _ => false
      | .error _ => true
    calendarDegraded := match calendarResult with
      | .printedJson _ => false
      | .exitedWithCode _ => true }

/-- The token object the OAuth callback of `getToken.js` receives from the
code exchange. -/
structure AuthTokens where
  refresh_token : Option String
  deriving Repr, DecidableEq

/-- The console lines printed by the success path of the OAuth callback in
`getToken.js`: the banner, the refresh token itself, the closing banner, the
save instruction, and the saved-path confirmation (an undefined token prints
as the literal undefined, as the JS console renders it). -/
def getRefreshTokenLogs (tokens : AuthTokens) (configPath : String) :
    List String :=
  [ "=================",
    "Refresh Token: " ++ tokens.refresh_token.getD "undefined",
    "=================",
    "Save this refresh token in your configuration!",
    "Configuration saved to " ++ configPath ]

/-- The credential-store errors named by the spec taxonomy. -/
inductive CredError where
  | credentialUnavailable
  | credentialRefreshFailed
  deriving Repr, DecidableEq

/-- A persisted credential record as the spec data model describes it. -/
structure CredentialRecord where
  clientId : String
  clientSecret : String
  refreshToken : String
  accessToken : String
  expiryDate : Int
  deriving Repr, DecidableEq

/-- The provider token endpoint outcome for one refresh attempt. -/
inductive RefreshOutcome where
  | success (newAccessToken : String) (newExpiryDate : Int)
  | rejected
  deriving Repr, DecidableEq

/-- The refresh safety margin of the spec, in milliseconds. -/
def refreshMarginMs : Int := 60000

/-- Modelled from the spec: `getValidAccessToken()` of the Credential Store
(spec section 4.1) — the token refresh itself is performed by the external
googleapis OAuth2 client and by repository code outside src, so the store is
modelled from the spec words: return the current access token while it is
comfortably before expiry; otherwise issue exactly one refresh call, and on
success persist the new token and expiry together in one record update.
Returns the outcome paired with the number of refresh calls issued. -/
def getValidAccessToken (record : Option CredentialRecord) (now : Int)
    (provider : RefreshOutcome) :
    Except CredError (CredentialRecord × String) × Nat :=
  match record with
  | none => (.error .credentialUnavailable, 0)
  | some rec =>
    if now + refreshMarginMs < rec.expiryDate then
      (.ok (rec, rec.accessToken), 0)
    else
      match provider with
      | .success newTok newExp =>
        (.ok ({ rec with accessToken := newTok, expiryDate := newExp }, newTok), 1)
      | .rejected => (.error .credentialRefreshFailed, 1)

/-- The provider-reported start key of a raw event, as the normalization
reads it: `dateTime` falling back to `date`. -/
def rawStartKey (event : RawEvent) : String :=
  (jsOr event.start.dateTime event.start.date).getD ""

/-- The start key of a normalized event. -/
def startKey (e : TodayEvent) : String := e.start.getD ""

/-- Ascending-by-start ordering of a normalized event list. -/
def sortedByStart (events : List TodayEvent) : Prop :=
  List.Pairwise (fun a b => startKey a ≤ startKey b) events

/-- Days since 1970-01-01 of a civil date, by the standard era
decomposition. -/
def daysFromCivil (y m d : Int) : Int :=
  let yv := if m ≤ 2 then y - 1 else y
  let era := (if 0 ≤ yv then yv else yv - 399) / 400
  let yoe := yv - era * 400
  let mp := (m + 9).emod 12
  let doy := (153 * mp + 2) / 5 + d - 1
  let doe := yoe * 365 + yoe / 4 - yoe / 100 + doy
  era * 146097 + doe - 719468

/-- The integer denoted by a list of digit characters. -/
def digitsToInt (cs : List Char) : Int :=
  cs.foldl (fun acc c => acc * 10 + ((c.toNat : Int) - 48)) 0

/-- The local-clock millisecond instant denoted by an ISO-8601 local
date-time string of the shape YYYY-MM-DDTHH:MM:SS, interpreting the event
start strings in the same local-clock frame as the query window. -/
def isoToLocalMs (s : String) : Int :=
  let cs := s.data
  let y := digitsToInt (cs.take 4)
  let mo := digitsToInt ((cs.drop 5).take 2)
  let d := digitsToInt ((cs.drop 8).take 2)
  let h := digitsToInt ((cs.drop 11).take 2)
  let mi := digitsToInt ((cs.drop 14).take 2)
  let sec := digitsToInt ((cs.drop 17).take 2)
  (((daysFromCivil y mo d * 24 + h) * 60 + mi) * 60 + sec) * 1000

/-- A well-formed parsed config: installed section with client credentials
and a redirect URI, plus tokens. -/
def sampleConfig : CalendarConfig :=
  { installed := some
      { client_id := some "client-id"
        client_secret := some "client-secret"
        redirect_uris := some ["http://localhost"] }
    tokens := some
      { refresh_token := some "refresh-token"
        access_token := none
        expiry_date := some 1700000000000 } }

/-- A service that has been constructed and successfully initialized against
the well-formed config. -/
def readyService : SvcState :=
  (initializeService (GoogleCalendarService.new none) (.parsed sampleConfig)).1

/-- C10 counterexample config: installed client credentials and tokens are
present but the redirect_uris array is missing. -/
def c10Config : CalendarConfig :=
  { installed := some
      { client_id := some "client-id"
        client_secret := some "client-secret"
        redirect_uris := none }
    tokens := some
      { refresh_token := some "refresh-token"
        access_token := none
        expiry_date := none } }

/-- A timed raw event starting at 09:00 local. -/
def c2EvA : RawEvent :=
  { id := "aaa"
    summary := some "Standup"
    description := none
    location := none
    start := { dateTime := some "2024-05-02T09:00:00", date := none }
    «end» := { dateTime := some "2024-05-02T09:30:00", date := none }
    attendees := none }

/-- A timed raw event starting at 10:00 local. -/
def c2EvB : RawEvent :=
  { id := "bbb"
    summary := some "Client Call"
    description := none
    location := none
    start := { dateTime := some "2024-05-02T10:00:00", date := none }
    «end» := { dateTime := some "2024-05-02T11:00:00", date := none }
    attendees := none }

/-- An event overlapping the queried day but starting the previous
evening. -/
def c3Raw : RawEvent :=
  { id := "overlap"
    summary := some "Overnight shift"
    description := none
    location := none
    start := { dateTime := some "2024-05-01T23:00:00", date := none }
    «end» := { dateTime := some "2024-05-02T01:00:00", date := none }
    attendees := none }

/-- A current instant during the queried day, on the local clock. -/
def c3Now : Int := isoToLocalMs "2024-05-02T08:00:00"

/-- A raw event with no title, description or location and two attendees. -/
def c5Ev : RawEvent :=
  { id := "ev-defaults"
    summary := none
    description := none
    location := none
    start := { dateTime := some "2024-05-02T09:00:00", date := none }
    «end» := { dateTime := some "2024-05-02T10:00:00", date := none }
    attendees := some [{ email := "ada@example.com" }, { email := "grace@example.com" }] }

/-- A date-only, all-day raw event. -/
def c6Ev : RawEvent :=
  { id := "ev-allday"
    summary := some "Public holiday"
    description := none
    location := none
    start := { dateTime := none, date := some "2024-05-02" }
    «end» := { dateTime := none, date := some "2024-05-03" }
    attendees := none }

/-- A credential record whose access token expiry has passed. -/
def c8Rec : CredentialRecord :=
  { clientId := "client-id"
    clientSecret := "client-secret"
    refreshToken := "refresh-token"
    accessToken := "old-access-token"
    expiryDate := 1000000 }

theorem initializeService_calendar (s : SvcState) (file : ConfigFile) :
    ((initializeService s file).1).calendar = s.calendar := by
  cases file with
  | absent => rfl
  | unreadable => rfl
  | malformed => rfl
  | parsed config =>
    cases h1 : config.installed with
    | none => simp [initializeService, initializeBody, h1]
    | some installed =>
      cases h2 : installed.redirect_uris with
      | none => simp [initializeService, initializeBody, h1, h2]
      | some uris =>
        cases h3 : config.tokens with
        | none => simp [initializeService, initializeBody, h1, h2, h3]
        | some toks => simp [initializeService, initializeBody, h1, h2, h3]

theorem initializeService_true_initialized (s : SvcState) (file : ConfigFile) :
    (initializeService s file).2 = true →
    ((initializeService s file).1).initialized = true := by
  cases file with
  | absent => intro h; exact absurd h (by simp [initializeService, initializeBody])
  | unreadable => intro h; exact absurd h (by simp [initializeService, initializeBody])
  | malformed => intro h; exact absurd h (by simp [initializeService, initializeBody])
  | parsed config =>
    cases h1 : config.installed with
    | none => simp [initializeService, initializeBody, h1]
    | some installed =>
      cases h2 : installed.redirect_uris with
      | none => simp [initializeService, initializeBody, h1, h2]
      | some uris =>
        cases h3 : config.tokens with
        | none => simp [initializeService, initializeBody, h1, h2, h3]
        | some toks => simp [initializeService, initializeBody, h1, h2, h3]

theorem templateFallback_ne_empty (w : Option WeatherSnapshot)
    (es : List TodayEvent) : templateFallback w es ≠ "" := by
  intro h
  have hd := congrArg String.data h
  simp [templateFallback, String.data_append, apos] at hd

theorem startKey_normalize (e : RawEvent) :
    startKey (normalizeTodayEvent e) = rawStartKey e := rfl

theorem getTodayEvents_apiError_error (s : SvcState) (file : ConfigFile)
    (now : Int) (m : String) :
    ∃ e, (getTodayEvents s file now (.apiError m)).1 = .error e := by
  by_cases h2 : (if s.initialized then (s, true) else initializeService s file).2
  · exact ⟨.apiError m, by simp [getTodayEvents, h2]⟩
  · exact ⟨.notInitialized, by simp [getTodayEvents, h2]⟩

/-- C10 (amended): initialize() never throws, because the try/catch converts
every internal throw — unreadable file, malformed JSON, and the TypeError
from indexing a missing redirect_uris — into a false return; it returns true
exactly when the config file parses and contains the installed section with
a redirect_uris array together with tokens; on success the service is marked
initialized and on any failure the initialized flag is left as it was. -/
theorem c10_initialize_result_amended (s : SvcState) (file : ConfigFile) :
    ((initializeService s file).2 = true ↔
      ∃ config installed uris tokens,
        file = .parsed config ∧ config.installed = some installed ∧
        installed.redirect_uris = some uris ∧ config.tokens = some tokens) ∧
    ((initializeService s file).2 = true →
      (initializeService s file).1.initialized = true) ∧
    ((initializeService s file).2 = false →
      (initializeService s file).1.initialized = s.initialized) := by
  refine ⟨?_, initializeService_true_initialized s file, ?_⟩
  · cases file with
    | absent => simp [initializeService, initializeBody]
    | unreadable => simp [initializeService, initializeBody]
    | malformed => simp [initializeService, initializeBody]
    | parsed config =>
      cases h1 : config.installed with
      | none => simp [initializeService, initializeBody, h1]
      | some installed =>
        cases h2 : installed.redirect_uris with
        | none => simp [initializeService, initializeBody, h1, h2]
        | some uris =>
          cases h3 : config.tokens with
          | none => simp [initializeService, initializeBody, h1, h2, h3]
          | some toks =>
            simp only [initializeService, initializeBody, h1, h2, h3]
            exact ⟨fun _ => ⟨config, installed, uris, toks, rfl, h1, h2, h3⟩,
              fun _ => trivial⟩
  · cases file with
    | absent => intro; rfl
    | unreadable => intro; rfl
    | malformed => intro; rfl
    | parsed config =>
      cases h1 : config.installed with
      | none => intro; simp [initializeService, initializeBody, h1]
      | some installed =>
        cases h2 : installed.redirect_uris with
        | none => intro; simp [initializeService, initializeBody, h1, h2]
        | some uris =>
          cases h3 : config.tokens with
          | none => intro; simp [initializeService, initializeBody, h1, h2, h3]
          | some toks => simp [initializeService, initializeBody, h1, h2, h3]

/-- C10 is refuted as stated: this config contains both the installed client
credentials and tokens, yet initialize() returns false, because the
destructured redirect_uris is undefined, indexing it throws, and the catch
turns the throw into false. -/
theorem c10_counterexample_missing_redirect_uris :
    c10Config.installed.isSome = true ∧ c10Config.tokens.isSome = true ∧
    (initializeService (GoogleCalendarService.new none) (.parsed c10Config)).2 = false :=
  ⟨rfl, rfl, rfl⟩

/-- C10 witness: the amended statement evaluated on a fresh service and the
well-formed sample config. -/
theorem c10_initialize_result_amended_witness :
    ((initializeService (GoogleCalendarService.new none) (.parsed sampleConfig)).2 = true ↔
      ∃ config installed uris tokens,
        ConfigFile.parsed sampleConfig = .parsed config ∧
        config.installed = some installed ∧
        installed.redirect_uris = some uris ∧ config.tokens = some tokens) ∧
    ((initializeService (GoogleCalendarService.new none) (.parsed sampleConfig)).2 = true →
      (initializeService (GoogleCalendarService.new none) (.parsed sampleConfig)).1.initialized = true) ∧
    ((initializeService (GoogleCalendarService.new none) (.parsed sampleConfig)).2 = false →
      (initializeService (GoogleCalendarService.new none) (.parsed sampleConfig)).1.initialized =
        (GoogleCalendarService.new none).initialized) :=
  c10_initialize_result_amended (GoogleCalendarService.new none) (.parsed sampleConfig)

theorem reachable_calendar_none {s : SvcState} (h : Reachable s) :
    s.calendar = none := by
  induction h with
  | ctor p => rfl
  | step s file _ ih => rw [initializeService_calendar]; exact ih

/-- C9: on every service state reachable through the class surface, the
calendar field was never assigned, so getEvents always reaches its error
branch and throws — it never returns successfully, for any date range or
provider behavior. -/
theorem c9_getEvents_always_throws (s : SvcState) (h : Reachable s)
    (file : ConfigFile) (startDate endDate : Int) (provider : ProviderResult) :
    getEvents s file startDate endDate provider = .error .typeError := by
  have hs := reachable_calendar_none h
  by_cases hinit : s.initialized
  · simp [getEvents, hinit, hs]
  · have h2 : ((initializeService s file).1).calendar = none := by
      rw [initializeService_calendar]; exact hs
    simp [getEvents, hinit, h2]

/-- C9 witness: a freshly constructed service evaluated on a concrete date
range with a healthy provider still throws. -/
theorem c9_getEvents_always_throws_witness :
    getEvents (GoogleCalendarService.new none) .absent 0 86400000 (.ok none) =
      .error .typeError :=
  c9_getEvents_always_throws (GoogleCalendarService.new none)
    (Reachable.ctor none) .absent 0 86400000 (.ok none)

/-- C4: when no credential record is available — the service is not
initialized and initialize() fails — getTodayEvents throws the
not-initialized error before issuing any list request; the network/API
error, a distinct constructor of the error type, occurs only when the
provider itself failed, in which case the list request had been issued. -/
theorem c4_no_credential_fails_before_network (s : SvcState)
    (file : ConfigFile) (now : Int) (provider : ProviderResult) :
    (s.initialized = false → (initializeService s file).2 = false →
      getTodayEvents s file now provider = (.error .notInitialized, [])) ∧
    (∀ m, (getTodayEvents s file now provider).1 = .error (.apiError m) →
      provider = .apiError m ∧ (getTodayEvents s file now provider).2 ≠ []) := by
  constructor
  · intro hinit hfail
    simp [getTodayEvents, hinit, hfail]
  · intro m h
    by_cases h2 : (if s.initialized then (s, true) else initializeService s file).2
    · cases provider with
      | ok items => simp [getTodayEvents, h2] at h
      | apiError msg =>
        simp [getTodayEvents, h2] at h ⊢
        exact h
    · simp [getTodayEvents, h2] at h

/-- C4 witness: an uninitializable service fails with the not-initialized
error and an empty request trace, while an initialized service hitting a
provider error has a non-empty request trace. -/
theorem c4_no_credential_fails_before_network_witness :
    getTodayEvents (GoogleCalendarService.new none) .absent 0 (.apiError "socket hang up") =
      (.error .notInitialized, []) ∧
    (ProviderResult.apiError "socket hang up" = .apiError "socket hang up" ∧
      (getTodayEvents readyService .absent 0 (.apiError "socket hang up")).2 ≠ []) :=
  ⟨(c4_no_credential_fails_before_network (GoogleCalendarService.new none) .absent 0
      (.apiError "socket hang up")).1 rfl rfl,
   (c4_no_credential_fails_before_network readyService .absent 0
      (.apiError "socket hang up")).2 "socket hang up" rfl⟩

/-- C2 is refuted as stated: the provider can answer with items out of
order, and getTodayEvents returns them in that same order, unsorted — the
adapter performs no sorting of its own. -/
theorem c2_counterexample_unsorted_provider :
    (getTodayEvents readyService .absent 0 (.ok (some [c2EvB, c2EvA]))).1 =
      .ok [normalizeTodayEvent c2EvB, normalizeTodayEvent c2EvA] ∧
    ¬ sortedByStart [normalizeTodayEvent c2EvB, normalizeTodayEvent c2EvA] := by
  constructor
  · rfl
  · intro hs
    have h1 : startKey (normalizeTodayEvent c2EvB) ≤ startKey (normalizeTodayEvent c2EvA) :=
      (List.pairwise_cons.mp hs).1 _ (by simp)
    rw [String.le_iff_toList_le] at h1
    exact (by decide : ¬ (startKey (normalizeTodayEvent c2EvB)).toList ≤
      (startKey (normalizeTodayEvent c2EvA)).toList) h1

/-- C2 (amended): getTodayEvents requests start-time ordering from the
provider and returns the provider items normalized in their response order,
so the returned list is sorted ascending by start exactly when the provider
response was; the adapter itself neither sorts nor breaks ties. -/
theorem c2_order_preserving_amended (s : SvcState) (file : ConfigFile)
    (now : Int) (items : List RawEvent) (events : List TodayEvent)
    (h : (getTodayEvents s file now (.ok (some items))).1 = .ok events)
    (hsorted : items.Pairwise fun a b => rawStartKey a ≤ rawStartKey b) :
    events = items.map normalizeTodayEvent ∧ sortedByStart events ∧
    ∀ r ∈ (getTodayEvents s file now (.ok (some items))).2, r.orderBy = "startTime" := by
  by_cases h2 : (if s.initialized then (s, true) else initializeService s file).2
  · simp [getTodayEvents, h2] at h ⊢
    refine ⟨h.symm, ?_⟩
    rw [h.symm, sortedByStart, List.pairwise_map]
    simpa [startKey_normalize] using hsorted
  · simp [getTodayEvents, h2] at h

/-- C2 witness: the amended statement evaluated on a provider response whose
two items arrive already sorted by start. -/
theorem c2_order_preserving_amended_witness :
    [normalizeTodayEvent c2EvA, normalizeTodayEvent c2EvB] =
      ([c2EvA, c2EvB].map normalizeTodayEvent) ∧
    sortedByStart [normalizeTodayEvent c2EvA, normalizeTodayEvent c2EvB] ∧
    ∀ r ∈ (getTodayEvents readyService .absent 0 (.ok (some [c2EvA, c2EvB]))).2,
      r.orderBy = "startTime" :=
  c2_order_preserving_amended readyService .absent 0 [c2EvA, c2EvB]
    [normalizeTodayEvent c2EvA, normalizeTodayEvent c2EvB] rfl
    (by
      refine List.pairwise_cons.mpr ⟨?_, List.pairwise_singleton _ _⟩
      intro b hb
      simp only [List.mem_singleton] at hb
      subst hb
      rw [String.le_iff_toList_le]
      decide)

/-- C3 is refuted in its second half: the query window is the local calendar
day, but the provider returns events overlapping the window, and the adapter
does no filtering — here an event that started the previous evening is
returned although its start instant lies before the window. -/
theorem c3_counterexample_overlapping_event :
    (getTodayEvents readyService .absent c3Now (.ok (some [c3Raw]))).1 =
      .ok [normalizeTodayEvent c3Raw] ∧
    isoToLocalMs ((normalizeTodayEvent c3Raw).start.getD "") < startOfDayMs c3Now :=
  ⟨rfl, by decide⟩

/-- C3 (amended): every list request getTodayEvents issues queries exactly
the local calendar day window — timeMin the local midnight, timeMax the last
millisecond of that day, the current instant inside the window, recurring
events expanded and start-time ordering requested — and a request is always
issued on the success path; however the adapter returns the provider items
normalized in order with no start filtering of its own, so a returned start
lies inside the window only when the provider already honored it. -/
theorem c3_day_window_amended (s : SvcState) (file : ConfigFile) (now : Int)
    (items : List RawEvent) (events : List TodayEvent)
    (h : (getTodayEvents s file now (.ok (some items))).1 = .ok events) :
    (getTodayEvents s file now (.ok (some items))).2 ≠ [] ∧
    (∀ r ∈ (getTodayEvents s file now (.ok (some items))).2,
      r.timeMin = startOfDayMs now ∧ r.timeMax = endOfDayMs now ∧
      r.singleEvents = true ∧ r.orderBy = "startTime") ∧
    startOfDayMs now % msPerDay = 0 ∧
    endOfDayMs now = startOfDayMs now + 86399999 ∧
    startOfDayMs now ≤ now ∧ now ≤ endOfDayMs now ∧
    events = items.map normalizeTodayEvent := by
  by_cases h2 : (if s.initialized then (s, true) else initializeService s file).2
  · have h3 : events = items.map normalizeTodayEvent := by
      simp [getTodayEvents, h2] at h
      exact h.symm
    refine ⟨by simp [getTodayEvents, h2], by simp [getTodayEvents, h2],
      ?_, ?_, ?_, ?_, h3⟩
    · unfold startOfDayMs msPerDay
      omega
    · rfl
    · unfold startOfDayMs msPerDay
      omega
    · unfold endOfDayMs startOfDayMs msPerDay
      omega
  · simp [getTodayEvents, h2] at h

/-- C3 witness: the amended statement evaluated on the ready service with a
single in-window event. -/
theorem c3_day_window_amended_witness :
    (getTodayEvents readyService .absent c3Now (.ok (some [c2EvA]))).2 ≠ [] ∧
    (∀ r ∈ (getTodayEvents readyService .absent c3Now (.ok (some [c2EvA]))).2,
      r.timeMin = startOfDayMs c3Now ∧ r.timeMax = endOfDayMs c3Now ∧
      r.singleEvents = true ∧ r.orderBy = "startTime") ∧
    startOfDayMs c3Now % msPerDay = 0 ∧
    endOfDayMs c3Now = startOfDayMs c3Now + 86399999 ∧
    startOfDayMs c3Now ≤ c3Now ∧ c3Now ≤ endOfDayMs c3Now ∧
    [normalizeTodayEvent c2EvA] = [c2EvA].map normalizeTodayEvent :=
  c3_day_window_amended readyService .absent c3Now [c2EvA]
    [normalizeTodayEvent c2EvA] rfl

/-- C5: formatEvents maps every raw event through the normalization body,
which substitutes the untitled placeholder for a missing title, the empty
default for missing description and location, and extracts attendee emails
into a flat list; the inline normalization of getTodayEvents applies the
same title default. -/
theorem c5_normalization_defaults (events : List RawEvent) (event : RawEvent) :
    formatEvents events = events.map formatEvent ∧
    (event.summary = none → (formatEvent event).summary = "Untitled Event") ∧
    (event.description = none → (formatEvent event).description = "") ∧
    (event.location = none → (formatEvent event).location = "") ∧
    (formatEvent event).attendees = (event.attendees.getD []).map RawAttendee.email ∧
    (∀ a ∈ event.attendees.getD [], a.email ∈ (formatEvent event).attendees) ∧
    (event.summary = none → (normalizeTodayEvent event).summary = "Untitled Event") := by
  refine ⟨rfl, ?_, ?_, ?_, rfl, ?_, ?_⟩
  · intro h
    simp [formatEvent, jsOrDefault, jsOr, jsTruthy, h]
  · intro h
    simp [formatEvent, jsOrDefault, jsOr, jsTruthy, h]
  · intro h
    simp [formatEvent, jsOrDefault, jsOr, jsTruthy, h]
  · intro a ha
    simp [formatEvent]
    exact ⟨a, ha, rfl⟩
  · intro h
    simp [normalizeTodayEvent, jsOrDefault, jsOr, jsTruthy, h]

/-- C5 witness: a raw event with no title, description or location and two
attendees evaluates to the defaults with the flat email list. -/
theorem c5_normalization_defaults_witness :
    (formatEvent c5Ev).summary = "Untitled Event" ∧
    (formatEvent c5Ev).description = "" ∧
    (formatEvent c5Ev).location = "" ∧
    (formatEvent c5Ev).attendees = ["ada@example.com", "grace@example.com"] ∧
    (normalizeTodayEvent c5Ev).summary = "Untitled Event" :=
  have h := c5_normalization_defaults [c5Ev] c5Ev
  ⟨h.2.1 rfl, h.2.2.1 rfl, h.2.2.2.1 rfl,
    h.2.2.2.2.1.trans rfl, h.2.2.2.2.2.2 rfl⟩

/-- C6: a raw event carrying only a date, with no dateTime, is normalized as
all-day by both normalizations — the all-day flag is set and the displayed
time is the all-day label, never a synthetic clock time — and the date is
kept as the start. -/
theorem c6_allday_label (event : RawEvent) (d : String)
    (hdt : event.start.dateTime = none) (hd : event.start.date = some d)
    (hT : jsIncludesChar d 'T' = false) :
    (formatEvent event).isAllDay = true ∧
    (formatEvent event).formattedTime = "All day" ∧
    (normalizeTodayEvent event).start = some d ∧
    (normalizeTodayEvent event).formattedTime = "All day" := by
  refine ⟨?_, ?_, ?_, ?_⟩ <;>
    simp [formatEvent, normalizeTodayEvent, jsOr, jsTruthy, hdt, hd, hT]

/-- C6 witness: a concrete date-only raw event evaluates to the all-day
labeling. -/
theorem c6_allday_label_witness :
    (formatEvent c6Ev).isAllDay = true ∧
    (formatEvent c6Ev).formattedTime = "All day" ∧
    (normalizeTodayEvent c6Ev).start = some "2024-05-02" ∧
    (normalizeTodayEvent c6Ev).formattedTime = "All day" :=
  c6_allday_label c6Ev "2024-05-02" rfl rfl (by decide)

/-- C1: a calendar fetch failure is caught at the script boundary of the
calendar path and reported upward as a nonzero exit for fallback — never an
unhandled error — and the orchestrator converts a failed calendar or weather
source into a degraded Briefing Result whose narrative is still non-empty:
successful language generation yields its text and any generation failure
falls back to the dependency-free template, which on a weather failure
carries the explicit weather-unavailable indicator. -/
theorem c1_resilient_briefing (s : SvcState) (file : ConfigFile) (now : Int)
    (m errW : String) (weatherResult : Except String WeatherSnapshot)
    (calendarResult : ScriptOutcome) (llm : LLMOutcome)
    (hllm : ∀ t, llm = .success t → t ≠ "") :
    getTodayEventsScript s file now (.apiError m) = .exitedWithCode 1 ∧
    (orchestratorRun weatherResult (.exitedWithCode 1) llm).narrative ≠ "" ∧
    (orchestratorRun weatherResult (.exitedWithCode 1) llm).calendarDegraded = true ∧
    (orchestratorRun (.error errW) calendarResult llm).narrative ≠ "" ∧
    (orchestratorRun (.error errW) calendarResult llm).weatherDegraded = true ∧
    (llm = .failure → ∃ p q,
      (orchestratorRun (.error errW) calendarResult llm).narrative =
        p ++ "weather unavailable" ++ q) := by
  have hnarr : ∀ (w : Option WeatherSnapshot) (es : List TodayEvent),
      compose w es llm ≠ "" := by
    intro w es
    cases llm with
    | success t => exact hllm t rfl
    | failure => exact templateFallback_ne_empty w es
  refine ⟨?_, ?_, ?_, ?_, ?_, ?_⟩
  · unfold getTodayEventsScript
    obtain ⟨e, he⟩ := getTodayEvents_apiError_error (initializeService s file).1 file now m
    by_cases h2 : (initializeService s file).2
    · simp [h2, he]
    · simp [h2]
  · cases weatherResult <;> simpa [orchestratorRun] using hnarr _ []
  · cases weatherResult <;> simp [orchestratorRun]
  · cases calendarResult <;> simpa [orchestratorRun] using hnarr none _
  · cases calendarResult <;> simp [orchestratorRun]
  · intro hl
    subst hl
    refine ⟨"Good morning! Today" ++ apos ++ "s weather: ", ?_⟩
    cases calendarResult with
    | printedJson es =>
      exact ⟨". You have " ++ toString es.length ++ " events today: " ++
        String.intercalate ", " (es.map renderEventLine) ++ ".",
        by
          simp [orchestratorRun, compose, templateFallback, String.append_assoc]
          rfl⟩
    | exitedWithCode c =>
      exact ⟨". You have " ++ toString ([] : List TodayEvent).length ++ " events today: " ++
        String.intercalate ", " (([] : List TodayEvent).map renderEventLine) ++ ".",
        by
          simp [orchestratorRun, compose, templateFallback, String.append_assoc]
          rfl⟩

/-- C1 witness: a provider 500 on both sources with failed generation still
yields exit-for-fallback at the script boundary and a non-empty degraded
narrative. -/
theorem c1_resilient_briefing_witness :
    getTodayEventsScript (GoogleCalendarService.new none) .absent 0
      (.apiError "provider 500") = .exitedWithCode 1 ∧
    (orchestratorRun (.error "provider 500") (.exitedWithCode 1) .failure).narrative ≠ "" ∧
    (orchestratorRun (.error "provider 500") (.exitedWithCode 1) .failure).calendarDegraded = true ∧
    (orchestratorRun (.error "provider 500") (.exitedWithCode 1) .failure).narrative ≠ "" ∧
    (orchestratorRun (.error "provider 500") (.exitedWithCode 1) .failure).weatherDegraded = true ∧
    (LLMOutcome.failure = .failure → ∃ p q,
      (orchestratorRun (.error "provider 500") (.exitedWithCode 1) .failure).narrative =
        p ++ "weather unavailable" ++ q) :=
  c1_resilient_briefing (GoogleCalendarService.new none) .absent 0
    "provider 500" "provider 500" (.error "provider 500") (.exitedWithCode 1) .failure
    (fun t h => nomatch h)

/-- C7 is refuted as stated: on the success path of the interactive
authorization flow the refresh token itself appears verbatim in a logged
console line. -/
theorem c7_counterexample_refresh_token_logged :
    ∃ line ∈ getRefreshTokenLogs ⟨some "sample-refresh-token-123"⟩ "calendar_config.json",
      ∃ p q, line = p ++ "sample-refresh-token-123" ++ q := by
  refine ⟨"Refresh Token: " ++ "sample-refresh-token-123", ?_, "Refresh Token: ", "", ?_⟩
  · simp [getRefreshTokenLogs]
  · simp

/-- C7 (amended): the credential lifecycle code under src logs the refresh
token in exactly one place, by design — the interactive authorization flow
prints it for the operator to save: whenever the code exchange returns a
refresh token, the success-path log lines contain it verbatim. -/
theorem c7_refresh_token_logged_amended (tokens : AuthTokens) (tok : String)
    (configPath : String) (h : tokens.refresh_token = some tok) :
    ∃ line ∈ getRefreshTokenLogs tokens configPath, ∃ p q, line = p ++ tok ++ q := by
  refine ⟨"Refresh Token: " ++ tok, ?_, "Refresh Token: ", "", by simp⟩
  simp [getRefreshTokenLogs, h]

/-- C7 witness: the amended statement evaluated on a concrete token set. -/
theorem c7_refresh_token_logged_amended_witness :
    ∃ line ∈ getRefreshTokenLogs ⟨some "rt-secret-1"⟩ "cfg.json",
      ∃ p q, line = p ++ "rt-secret-1" ++ q :=
  c7_refresh_token_logged_amended ⟨some "rt-secret-1"⟩ "rt-secret-1" "cfg.json" rfl

/-- C8: for every credential record whose access token is at or past its
recorded expiry, exactly one refresh call is issued; a successful refresh
returns the record holding the new access token and its expiry together —
one atomic record replacement, with the caller handed the new token and
never the expired one — and a rejected refresh fails terminally. -/
theorem c8_refresh_exactly_once (rec : CredentialRecord) (now : Int)
    (provider : RefreshOutcome) (hexp : rec.expiryDate ≤ now) :
    (getValidAccessToken (some rec) now provider).2 = 1 ∧
    (∀ newTok newExp, provider = .success newTok newExp →
      (getValidAccessToken (some rec) now provider).1 =
        .ok ({ rec with accessToken := newTok, expiryDate := newExp }, newTok)) ∧
    (provider = .rejected →
      (getValidAccessToken (some rec) now provider).1 = .error .credentialRefreshFailed) := by
  have hlt : ¬ (now + refreshMarginMs < rec.expiryDate) := by
    unfold refreshMarginMs
    omega
  refine ⟨?_, ?_, ?_⟩
  · cases provider <;> simp [getValidAccessToken, hlt]
  · intro newTok newExp hp
    subst hp
    simp [getValidAccessToken, hlt]
  · intro hp
    subst hp
    simp [getValidAccessToken, hlt]

/-- C8 witness: an expired record refreshed successfully at a concrete
instant issues one refresh call and carries the new token and expiry. -/
theorem c8_refresh_exactly_once_witness :
    (getValidAccessToken (some c8Rec) 2000000 (.success "new-access-token" 5600000)).2 = 1 ∧
    (getValidAccessToken (some c8Rec) 2000000 (.success "new-access-token" 5600000)).1 =
      .ok ({ c8Rec with accessToken := "new-access-token", expiryDate := 5600000 },
        "new-access-token") :=
  have h := c8_refresh_exactly_once c8Rec 2000000
    (.success "new-access-token" 5600000) (by decide)
  ⟨h.1, h.2.1 "new-access-token" 5600000 rfl⟩

end MorningStation
